import Mathlib

/-!
Verification of the audio capture / voice-activity / playback engine of
`frontend/src/services/audio.ts` (class `AudioService`).

Samples are modelled as exact rationals (`ℚ`); the DSP computations that the
source performs with `Math.sqrt` and `Math.PI` (RMS energy, low-pass filter
coefficient) are modelled over the reals (`ℝ`).  Machine time (`Date.now()`)
is modelled as a natural-number millisecond clock passed to each frame
callback.  Effects (WAV blobs handed to the WebSocket transport, interrupt
signals, events dispatched to listeners) are returned explicitly.
-/

namespace Vocalis

/-- Playback/recording pipeline states (`enum AudioState` in audio.ts). -/
inductive AudioState where
  | INACTIVE
  | RECORDING
  | PLAYING
  | SPEAKING
  | INTERRUPTED
  deriving DecidableEq, Repr

/-- The mutable fields of class `AudioService` that the audio pipeline reads
and writes.  `audioQueue` entries and `currentSource` are opaque handles
(the decoded `AudioBuffer`s / `AudioBufferSourceNode` are never inspected,
only moved around), so they are modelled as natural-number ids.  The
configuration field `sampleRate` is included because `handleAudioProcess` and
`sendAudioChunk` read `this.config.sampleRate`. -/
structure AudioServiceState where
  sampleRate : ℕ
  audioBuffer : List (List ℚ)
  audioState : AudioState
  audioQueue : List ℕ
  isPlaying : Bool
  isSpeaking : Bool
  isMuted : Bool
  currentSource : Option ℕ
  isInterrupted : Bool
  isProcessing : Bool
  isGreeting : Bool
  isVisionProcessing : Bool
  isVoiceDetected : Bool
  lastVoiceTime : ℕ
  deriving DecidableEq, Repr

/-- `voiceThreshold = 0.03` (field initializer in audio.ts). -/
noncomputable def voiceThreshold : ℝ := 3 / 100

/-- `silenceTimeout = 1000` ms (field initializer in audio.ts). -/
def silenceTimeout : ℕ := 1000

/-- `minRecordingLength = 1000` ms (field initializer in audio.ts). -/
def minRecordingLength : ℕ := 1000

/-! ### WAV encoding (`float32ToWav`, `writeString`) -/

/-- ASCII bytes of "RIFF" as written by `writeString(view, 0, 'RIFF')`. -/
def riffBytes : List ℕ := ['R', 'I', 'F', 'F'].map Char.toNat

/-- ASCII bytes of "WAVE". -/
def waveBytes : List ℕ := ['W', 'A', 'V', 'E'].map Char.toNat

/-- ASCII bytes of "fmt " (with trailing space). -/
def fmtBytes : List ℕ := ['f', 'm', 't', ' '].map Char.toNat

/-- ASCII bytes of "data". -/
def dataTagBytes : List ℕ := ['d', 'a', 't', 'a'].map Char.toNat

/-- Little-endian bytes written by `DataView.setUint16(_, v, true)`. -/
def uint16LE (v : ℕ) : List ℕ := [v % 256, v / 256 % 256]

/-- Little-endian bytes written by `DataView.setUint32(_, v, true)`. -/
def uint32LE (v : ℕ) : List ℕ :=
  [v % 256, v / 256 % 256, v / 2 ^ 16 % 256, v / 2 ^ 24 % 256]

/-- JavaScript number-to-integer conversion (ToIntegerOrInfinity): truncation
toward zero, applied by `DataView.setInt16` to a fractional argument. -/
def jsTrunc (x : ℚ) : ℤ := if x < 0 then ⌈x⌉ else ⌊x⌋

/-- Little-endian bytes written by `DataView.setInt16(_, v, true)`:
two's-complement 16-bit wrap of the integer, low byte first. -/
def int16LE (v : ℤ) : List ℕ := uint16LE ((v % 65536).toNat)

/-- `Math.max(-1.0, Math.min(1.0, buffer[i]))` in `float32ToWav`. -/
def clampSample (x : ℚ) : ℚ := max (-1) (min 1 x)

/-- `const val = sample < 0 ? sample * 32768 : sample * 32767` followed by the
integer truncation `setInt16` performs. -/
def sampleToInt16 (x : ℚ) : ℤ :=
  let sample := clampSample x
  if sample < 0 then jsTrunc (sample * 32768) else jsTrunc (sample * 32767)

/-- `float32ToWav(buffer, sampleRate)`: 44-byte RIFF/WAVE PCM header followed
by the 16-bit little-endian data section, byte for byte in offset order. -/
def float32ToWav (buffer : List ℚ) (sampleRate : ℕ) : List ℕ :=
  let numChannels := 1
  let bytesPerSample := 2
  let dataSize := buffer.length * bytesPerSample
  let headerSize := 44
  let totalSize := headerSize + dataSize
  riffBytes ++ uint32LE (totalSize - 8) ++ waveBytes ++
    fmtBytes ++ uint32LE 16 ++ uint16LE 1 ++ uint16LE numChannels ++
    uint32LE sampleRate ++ uint32LE (sampleRate * numChannels * bytesPerSample) ++
    uint16LE (numChannels * bytesPerSample) ++ uint16LE (bytesPerSample * 8) ++
    dataTagBytes ++ uint32LE dataSize ++
    (buffer.map (fun x => int16LE (sampleToInt16 x))).flatten

/-- The canonical RIFF/WAVE PCM header layout as the specification words it:
`RIFF`, chunk size = totalSize − 8, `WAVE`, `fmt ` subchunk of size 16 with
format 1, channels 1, the given sample rate, byteRate = sampleRate × 2,
blockAlign = 2, bitsPerSample = 16, then `data` with size 2·n. -/
def wavHeaderSpec (sampleRate n : ℕ) : List ℕ :=
  riffBytes ++ uint32LE (44 + 2 * n - 8) ++ waveBytes ++
    fmtBytes ++ uint32LE 16 ++ uint16LE 1 ++ uint16LE 1 ++
    uint32LE sampleRate ++ uint32LE (sampleRate * 2) ++
    uint16LE 2 ++ uint16LE 16 ++
    dataTagBytes ++ uint32LE (2 * n)

/-- Per-sample data encoding as the specification words it: clamp to
[-1.0, 1.0], scale by 32768 if negative and by 32767 if non-negative, store
as a 16-bit little-endian integer. -/
def wavSampleSpec (x : ℚ) : List ℕ :=
  int16LE (if clampSample x < 0 then jsTrunc (clampSample x * 32768)
           else jsTrunc (clampSample x * 32767))

lemma int16LE_length (v : ℤ) : (int16LE v).length = 2 := rfl

lemma wavSampleSpec_length (x : ℚ) : (wavSampleSpec x).length = 2 := rfl

lemma flatten_wavSampleSpec_length (buffer : List ℚ) :
    ((buffer.map wavSampleSpec).flatten).length = 2 * buffer.length := by
  induction buffer with
  | nil => simp
  | cons a l ih =>
      simp only [List.map_cons, List.flatten_cons, List.length_append,
        wavSampleSpec_length, ih, List.length_cons]
      omega

/-- Claim C4: for every sample sequence and sample rate, `float32ToWav`
returns a buffer of exactly 44 + 2·n bytes equal to the canonical RIFF/WAVE
PCM header (`RIFF`, little-endian chunk size = totalSize − 8, `WAVE`, a
`fmt ` subchunk of size 16 with format 1, channels 1, the given sampleRate,
byteRate = sampleRate×2, blockAlign = 2, bitsPerSample = 16, then `data`
with size 2·n) followed by the data section holding each input sample
clamped to [-1.0, 1.0], scaled by 32768 if negative and by 32767 if
non-negative, stored as 16-bit little-endian integers. -/
theorem float32ToWav_canonical (buffer : List ℚ) (sampleRate : ℕ) :
    (float32ToWav buffer sampleRate).length = 44 + 2 * buffer.length ∧
    float32ToWav buffer sampleRate =
      wavHeaderSpec sampleRate buffer.length ++ (buffer.map wavSampleSpec).flatten := by
  have hmap : buffer.map (fun x => int16LE (sampleToInt16 x)) = buffer.map wavSampleSpec := by
    refine List.map_congr_left ?_
    intro x _
    simp [wavSampleSpec, sampleToInt16]
  have e1 : buffer.length * 2 = 2 * buffer.length := Nat.mul_comm _ _
  have e2 : sampleRate * 1 * 2 = sampleRate * 2 := by ring
  have hbody : float32ToWav buffer sampleRate =
      wavHeaderSpec sampleRate buffer.length ++ (buffer.map wavSampleSpec).flatten := by
    simp only [float32ToWav, wavHeaderSpec, hmap, e1, e2]
  refine ⟨?_, hbody⟩
  rw [hbody]
  have hh : (wavHeaderSpec sampleRate buffer.length).length = 44 := by
    simp [wavHeaderSpec, riffBytes, waveBytes, fmtBytes, dataTagBytes, uint16LE, uint32LE]
  rw [List.length_append, hh, flatten_wavSampleSpec_length]

/-! ### Signal conditioning (`applyLowPassFilter`) and energy (`calculateRMSEnergy`) -/

/-- The filter coefficient computed in `applyLowPassFilter`:
`RC = 1.0 / (cutoff * 2 * Math.PI)`, `dt = 1.0 / sampleRate`,
`alpha = dt / (RC + dt)`. -/
noncomputable def lpAlpha (sampleRate cutoff : ℝ) : ℝ :=
  let RC := 1 / (cutoff * 2 * Real.pi)
  let dt := 1 / sampleRate
  dt / (RC + dt)

/-- The loop body of `applyLowPassFilter` from index 1 on:
`output[i] = output[i-1] + alpha * (buffer[i] - output[i-1])`, where `prev`
is the previously written output sample. -/
def lowPassAux (alpha : ℝ) : ℝ → List ℝ → List ℝ
  | _, [] => []
  | prev, x :: xs =>
      (prev + alpha * (x - prev)) :: lowPassAux alpha (prev + alpha * (x - prev)) xs

/-- `applyLowPassFilter(buffer, sampleRate, cutoff = 3000)`:
`output[0] = buffer[0]`, then the first-order IIR recurrence. -/
noncomputable def applyLowPassFilter (buffer : List ℝ) (sampleRate : ℝ)
    (cutoff : ℝ := 3000) : List ℝ :=
  match buffer with
  | [] => []
  | x :: xs => x :: lowPassAux (lpAlpha sampleRate cutoff) x xs

/-- `calculateRMSEnergy(buffer)`: square root of the mean of squares. -/
noncomputable def calculateRMSEnergy (buffer : List ℝ) : ℝ :=
  Real.sqrt ((buffer.map (fun x => x * x)).sum / (buffer.length : ℝ))

lemma lowPassAux_length (alpha : ℝ) :
    ∀ (prev : ℝ) (xs : List ℝ), (lowPassAux alpha prev xs).length = xs.length := by
  intro prev xs
  induction xs generalizing prev with
  | nil => rfl
  | cons x xs ih => simp [lowPassAux, ih]

lemma lowPassAux_get (alpha : ℝ) :
    ∀ (prev : ℝ) (xs : List ℝ) (i : ℕ) (p x : ℝ),
      (lowPassAux alpha prev xs).get? i = some p →
      xs.get? (i + 1) = some x →
      (lowPassAux alpha prev xs).get? (i + 1) = some (p + alpha * (x - p)) := by
  intro prev xs
  induction xs generalizing prev with
  | nil => intro i p x h _; simp [lowPassAux] at h
  | cons y ys ih =>
      intro i p x hp hx
      match i with
      | 0 =>
          simp [lowPassAux] at hp hx ⊢
          match ys, hx with
          | z :: zs, hx =>
              simp at hx
              simp [lowPassAux, ← hp, hx]
      | Nat.succ j =>
          simp only [lowPassAux, List.get?_cons_succ] at hp hx ⊢
          exact ih _ j p x hp hx

lemma lowPassAux_const (alpha c : ℝ) (n : ℕ) :
    lowPassAux alpha c (List.replicate n c) = List.replicate n c := by
  induction n with
  | zero => rfl
  | succ m ih =>
      have hc : c + alpha * (c - c) = c := by ring
      simp [List.replicate_succ, lowPassAux, hc, ih]

/-- Claim C7: `applyLowPassFilter` returns a buffer of the same length
satisfying exactly the recurrence `y[0] = x[0]`,
`y[i] = y[i-1] + α·(x[i] − y[i-1])` with `α = dt / (RC + dt)`,
`dt = 1/sampleRate`, `RC = 1/(2π·cutoff)`; and for constant input `c` every
output sample equals `c`. -/
theorem applyLowPassFilter_spec (buffer : List ℝ) (sampleRate cutoff : ℝ) :
    (applyLowPassFilter buffer sampleRate cutoff).length = buffer.length ∧
    lpAlpha sampleRate cutoff =
      (1 / sampleRate) / (1 / (2 * Real.pi * cutoff) + 1 / sampleRate) ∧
    (∀ x xs, buffer = x :: xs →
      (applyLowPassFilter buffer sampleRate cutoff).get? 0 = some x) ∧
    (∀ i p x,
      (applyLowPassFilter buffer sampleRate cutoff).get? i = some p →
      buffer.get? (i + 1) = some x →
      (applyLowPassFilter buffer sampleRate cutoff).get? (i + 1) =
        some (p + lpAlpha sampleRate cutoff * (x - p))) ∧
    (∀ (c : ℝ) (n : ℕ),
      applyLowPassFilter (List.replicate n c) sampleRate cutoff = List.replicate n c) := by
  refine ⟨?_, ?_, ?_, ?_, ?_⟩
  · cases buffer with
    | nil => rfl
    | cons x xs => simp [applyLowPassFilter, lowPassAux_length]
  · simp only [lpAlpha]
    ring_nf
  · intro x xs h
    subst h
    rfl
  · intro i p x hp hx
    cases buffer with
    | nil => simp [applyLowPassFilter] at hp
    | cons y ys =>
        match i with
        | 0 =>
            simp [applyLowPassFilter] at hp hx ⊢
            subst hp
            match ys, hx with
            | z :: zs, hx =>
                simp at hx
                simp [lowPassAux, hx]
        | Nat.succ j =>
            simp only [applyLowPassFilter, List.get?_cons_succ] at hp hx ⊢
            exact lowPassAux_get _ _ _ j p x hp hx
  · intro c n
    cases n with
    | zero => rfl
    | succ m => simp [applyLowPassFilter, List.replicate_succ, lowPassAux_const]

/-- Witness for claim C7 at a concrete input: buffer `[0, 1]`, sample rate
44100, cutoff 3000; the recurrence clause yields
`y[1] = y[0] + α·(x[1] − y[0])`. -/
theorem applyLowPassFilter_spec_witness :
    (applyLowPassFilter [0, 1] 44100 3000).get? 1 =
      some (0 + lpAlpha 44100 3000 * (1 - 0)) :=
  (applyLowPassFilter_spec [0, 1] 44100 3000).2.2.2.1 0 0 1 rfl rfl

/-! ### Playback control (`interruptPlayback`, `stopPlayback`, `onended`) -/

/-- `interruptPlayback()`: set the interrupt flag, stop and drop the current
source if any, purge the whole queue, set state INTERRUPTED and clear the
playing/speaking flags.  (The `PLAYBACK_STOP` event is dispatched only when a
source was playing; the state effect is unconditional.) -/
def interruptPlayback (s : AudioServiceState) : AudioServiceState :=
  { s with isInterrupted := true, currentSource := none, audioQueue := [],
           audioState := AudioState.INTERRUPTED, isPlaying := false,
           isSpeaking := false }

/-- `stopPlayback()`: if no current source is tracked, return immediately;
otherwise stop the source, clear the queue, and go INACTIVE. -/
def stopPlayback (s : AudioServiceState) : AudioServiceState :=
  if s.currentSource = none then s
  else
    { s with currentSource := none, audioQueue := [],
             audioState := AudioState.INACTIVE, isPlaying := false,
             isSpeaking := false }

/-- The `source.onended` handler installed by `playNextChunk`.  Returns the
new state and whether a `playNextChunk` continuation was scheduled
(`setTimeout(() => this.playNextChunk(), 0)`). -/
def sourceOnEnded (s : AudioServiceState) : AudioServiceState × Bool :=
  if s.isInterrupted = true then (s, false)
  else if s.audioQueue.length > 0 then (s, true)
  else
    ({ s with isPlaying := false, isSpeaking := false,
              audioState := AudioState.INACTIVE, currentSource := none }, false)

/-! ### Utterance flushing (`sendAudioChunk`) -/

/-- The duration check value `(totalLength / this.config.sampleRate) * 1000`
computed in `sendAudioChunk`. -/
def audioLengthMs (s : AudioServiceState) : ℚ :=
  (((s.audioBuffer.map List.length).sum : ℚ) / (s.sampleRate : ℚ)) * 1000

/-- `sendAudioChunk()`: returns the new state together with the WAV blob
handed to `websocketService.sendAudio`, if any. -/
def sendAudioChunk (s : AudioServiceState) : AudioServiceState × Option (List ℕ) :=
  if s.audioBuffer = [] then (s, none)
  else if s.isProcessing = true then ({ s with audioBuffer := [] }, none)
  else if s.isVoiceDetected = false ∧ audioLengthMs s < (minRecordingLength : ℚ) then
    ({ s with audioBuffer := [] }, none)
  else
    ({ s with audioBuffer := [] },
      some (float32ToWav s.audioBuffer.flatten s.sampleRate))

/-! ### The frame callback (`handleAudioProcess`) -/

/-- Everything a single `handleAudioProcess` invocation produces: the new
service state, the WAV blob sent to the transport (if the flush path sent
one), the utterance contents at the moment `sendAudioChunk` was invoked (if
it was), whether `websocketService.interrupt()` was signalled, whether
`interruptPlayback()` was invoked, and the `isVoice` flag of the
`RECORDING_DATA` event dispatched to listeners. -/
structure FrameOutput where
  state : AudioServiceState
  sent : Option (List ℕ)
  flushed : Option (List (List ℚ))
  sentInterrupt : Bool
  interruptInvoked : Bool
  recordingDataIsVoice : Bool
  deriving Repr

/-- The RMS energy `handleAudioProcess` computes for a frame: the low-pass
filter (cutoff 3000 Hz) applied to a copy of the frame, then
`calculateRMSEnergy` of the filtered copy. -/
noncomputable def frameEnergy (frame : List ℚ) (sampleRate : ℕ) : ℝ :=
  calculateRMSEnergy (applyLowPassFilter (frame.map Rat.cast) (sampleRate : ℝ) 3000)

open Classical in
/-- Lines 399–431 of `handleAudioProcess`: the second protected-state check,
the accumulate-or-skip decision, the silence-timeout flush, and the final
`RECORDING_DATA` dispatch.  `interruptInvoked`/`sentInterrupt` carry what the
earlier voice-detection phase already did. -/
noncomputable def accumulateFrame (s : AudioServiceState) (bufferCopy : List ℚ)
    (now : ℕ) (energy : ℝ) (interruptInvoked sentInterrupt : Bool) : FrameOutput :=
  if s.isProcessing = true ∨ s.isVisionProcessing = true ∨ s.isGreeting = true then
    { state := s, sent := none, flushed := none, sentInterrupt := sentInterrupt,
      interruptInvoked := interruptInvoked, recordingDataIsVoice := false }
  else if s.isVoiceDetected = true ∨ now - s.lastVoiceTime < silenceTimeout then
    let s3 : AudioServiceState := { s with audioBuffer := s.audioBuffer ++ [bufferCopy] }
    let timeSinceVoice := now - s3.lastVoiceTime
    if energy ≤ voiceThreshold ∧ timeSinceVoice > silenceTimeout then
      let s4 : AudioServiceState := { s3 with isVoiceDetected := false }
      let r := sendAudioChunk s4
      { state := r.1, sent := r.2, flushed := some s4.audioBuffer,
        sentInterrupt := sentInterrupt, interruptInvoked := interruptInvoked,
        recordingDataIsVoice := r.1.isVoiceDetected }
    else
      { state := s3, sent := none, flushed := none, sentInterrupt := sentInterrupt,
        interruptInvoked := interruptInvoked, recordingDataIsVoice := s3.isVoiceDetected }
  else
    { state := s, sent := none, flushed := none, sentInterrupt := sentInterrupt,
      interruptInvoked := interruptInvoked, recordingDataIsVoice := s.isVoiceDetected }

open Classical in
/-- `handleAudioProcess(event)` for one frame (`inputData`, copied to
`bufferCopy`) arriving at millisecond time `now` (`Date.now()`). -/
noncomputable def handleAudioProcess (s : AudioServiceState) (inputData : List ℚ)
    (now : ℕ) : FrameOutput :=
  let bufferCopy := inputData
  let energy := frameEnergy bufferCopy s.sampleRate
  if energy > voiceThreshold then
    if s.isProcessing = true ∨ s.isVisionProcessing = true ∨ s.isGreeting = true then
      { state := s, sent := none, flushed := none, sentInterrupt := false,
        interruptInvoked := false, recordingDataIsVoice := false }
    else
      let r : AudioServiceState × Bool × Bool :=
        if s.isVoiceDetected = false then
          let sA : AudioServiceState := { s with isVoiceDetected := true }
          if (sA.isSpeaking = true ∨ sA.audioState = AudioState.SPEAKING) ∧
              sA.isGreeting = false then
            (interruptPlayback sA, true, true)
          else (sA, false, false)
        else (s, false, false)
      let s2 : AudioServiceState := { r.1 with lastVoiceTime := now }
      accumulateFrame s2 bufferCopy now energy r.2.1 r.2.2
  else
    accumulateFrame s bufferCopy now energy false false

/-- Runs `handleAudioProcess` over a sequence of (frame, arrival-time)
pairs, collecting the utterance contents of every `sendAudioChunk`
invocation. -/
noncomputable def processFrames :
    AudioServiceState → List (List ℚ × ℕ) → AudioServiceState × List (List (List ℚ))
  | s, [] => (s, [])
  | s, p :: rest =>
      let out := handleAudioProcess s p.1 p.2
      let r := processFrames out.state rest
      (r.1, out.flushed.toList ++ r.2)

/-! ### Event dispatch (`dispatchEvent`) -/

/-- One listener invocation inside the `forEach` of `dispatchEvent`: the
`try { listener(data) } catch (error) { console.error(...) }` body.  A
listener either returns normally or throws; the thrown error is caught and
reported, so the outcome of the invocation is `none` (normal return) or
`some e` (caught error `e`). -/
def runListener {P E : Type} (l : P → Except E Unit) (d : P) : Option E :=
  match l d with
  | Except.ok _ => none
  | Except.error e => some e

/-- `dispatchEvent(event, data)`: iterate over the registered listener list
in registration order, invoking each listener on `data` inside its own
try/catch.  The result records, in order, each listener's outcome. -/
def dispatchEvent {P E : Type} : List (P → Except E Unit) → P → List (Option E)
  | [], _ => []
  | l :: ls, d => runListener l d :: dispatchEvent ls d

/-- Claim C9: `dispatchEvent` invokes the listeners synchronously in
registration order — every registered listener is invoked exactly once on
the payload, the i-th outcome being the i-th listener's — and when an
individual listener throws, the exception is caught (recorded as its
outcome) and every remaining listener in the list is still invoked. -/
theorem dispatchEvent_spec {P E : Type} (listeners : List (P → Except E Unit)) (d : P) :
    (dispatchEvent listeners d).length = listeners.length ∧
    (∀ i, (dispatchEvent listeners d).get? i =
      (listeners.get? i).map (fun l => runListener l d)) ∧
    (∀ (l : P → Except E Unit) (ls : List (P → Except E Unit)) (e : E),
      runListener l d = some e →
      dispatchEvent (l :: ls) d = some e :: dispatchEvent ls d) := by
  refine ⟨?_, ?_, ?_⟩
  · induction listeners with
    | nil => rfl
    | cons l ls ih => simp [dispatchEvent, ih]
  · intro i
    induction listeners generalizing i with
    | nil => simp [dispatchEvent]
    | cons l ls ih =>
        match i with
        | 0 => rfl
        | Nat.succ j => simp only [dispatchEvent, List.get?_cons_succ]; exact ih j
  · intro l ls e he
    simp [dispatchEvent, he]

/-- Witness for claim C9: a first listener that throws error `7`, followed by
a listener that returns normally; both outcomes are recorded in order. -/
theorem dispatchEvent_spec_witness :
    (dispatchEvent [fun _ : ℕ => Except.error 7,
        fun _ : ℕ => Except.ok ()] 0).get? 0 = some (some (7 : ℕ)) ∧
    (dispatchEvent [fun _ : ℕ => Except.error 7,
        fun _ : ℕ => Except.ok ()] 0).get? 1 = some none ∧
    dispatchEvent [fun _ : ℕ => Except.error 7, fun _ : ℕ => Except.ok ()] 0 =
      some 7 :: dispatchEvent [fun _ : ℕ => Except.ok ()] 0 := by
  refine ⟨?_, ?_, ?_⟩
  · exact (dispatchEvent_spec [fun _ : ℕ => Except.error 7,
      fun _ : ℕ => Except.ok ()] 0).2.1 0
  · exact (dispatchEvent_spec [fun _ : ℕ => Except.error 7,
      fun _ : ℕ => Except.ok ()] 0).2.1 1
  · exact (dispatchEvent_spec [fun _ : ℕ => Except.error 7,
      fun _ : ℕ => Except.ok ()] 0).2.2 _ [fun _ : ℕ => Except.ok ()] 7 rfl

/-! ### Claim C10: `stopPlayback` with no tracked source is a no-op -/

/-- Claim C10: if `stopPlayback` runs while `currentSource` is null it leaves
the whole state — queue, audioState, isPlaying, isSpeaking — unchanged, even
when the queue is non-empty, whereas `interruptPlayback` unconditionally
purges the queue and sets the state to INTERRUPTED. -/
theorem stopPlayback_noop (s : AudioServiceState) (h : s.currentSource = none) :
    stopPlayback s = s ∧
    (interruptPlayback s).audioQueue = [] ∧
    (interruptPlayback s).audioState = AudioState.INTERRUPTED := by
  refine ⟨?_, rfl, rfl⟩
  simp [stopPlayback, h]

/-- Witness for claim C10: a state with no tracked source but a non-empty
queue; `stopPlayback` leaves it untouched. -/
theorem stopPlayback_noop_witness :
    stopPlayback
        { sampleRate := 44100, audioBuffer := [], audioState := AudioState.PLAYING,
          audioQueue := [4, 5], isPlaying := true, isSpeaking := false,
          isMuted := false, currentSource := none, isInterrupted := false,
          isProcessing := false, isGreeting := false, isVisionProcessing := false,
          isVoiceDetected := false, lastVoiceTime := 0 } =
      { sampleRate := 44100, audioBuffer := [], audioState := AudioState.PLAYING,
        audioQueue := [4, 5], isPlaying := true, isSpeaking := false,
        isMuted := false, currentSource := none, isInterrupted := false,
        isProcessing := false, isGreeting := false, isVisionProcessing := false,
        isVoiceDetected := false, lastVoiceTime := 0 } :=
  (stopPlayback_noop _ rfl).1

/-! ### Claim C6: an interrupted chunk-completion handler stops the chain -/

/-- Claim C6: whenever the interrupted flag is set, the chunk-completion
handler (`onended`) neither schedules `playNextChunk` nor mutates any
playback state: it returns the state unchanged. -/
theorem sourceOnEnded_interrupted (s : AudioServiceState) (h : s.isInterrupted = true) :
    sourceOnEnded s = (s, false) := by
  simp [sourceOnEnded, h]

/-- Witness for claim C6: an interrupted state with chunks still queued; the
handler does not advance. -/
theorem sourceOnEnded_interrupted_witness :
    sourceOnEnded
        { sampleRate := 44100, audioBuffer := [], audioState := AudioState.INTERRUPTED,
          audioQueue := [9], isPlaying := false, isSpeaking := false,
          isMuted := false, currentSource := none, isInterrupted := true,
          isProcessing := false, isGreeting := false, isVisionProcessing := false,
          isVoiceDetected := false, lastVoiceTime := 0 } =
      ({ sampleRate := 44100, audioBuffer := [], audioState := AudioState.INTERRUPTED,
         audioQueue := [9], isPlaying := false, isSpeaking := false,
         isMuted := false, currentSource := none, isInterrupted := true,
         isProcessing := false, isGreeting := false, isVisionProcessing := false,
         isVoiceDetected := false, lastVoiceTime := 0 }, false) :=
  sourceOnEnded_interrupted _ rfl

/-! ### Claim C5: the short-fragment guard in `sendAudioChunk` -/

/-- Claim C5: when `sendAudioChunk` runs with a non-empty buffer, then (a) if
the accumulated duration is strictly below `minRecordingLength` and voice is
not currently detected, the buffer is cleared and nothing is sent; and (b)
otherwise — voice detected or duration sufficient, and no processing
suppression — the concatenated buffer is WAV-encoded and sent. -/
theorem sendAudioChunk_guard (s : AudioServiceState) (hne : s.audioBuffer ≠ []) :
    (s.isVoiceDetected = false → audioLengthMs s < (minRecordingLength : ℚ) →
      sendAudioChunk s = ({ s with audioBuffer := [] }, none)) ∧
    (s.isProcessing = false →
      (s.isVoiceDetected = true ∨ (minRecordingLength : ℚ) ≤ audioLengthMs s) →
      sendAudioChunk s =
        ({ s with audioBuffer := [] },
          some (float32ToWav s.audioBuffer.flatten s.sampleRate))) := by
  constructor
  · intro hv hlen
    by_cases hp : s.isProcessing = true
    · simp [sendAudioChunk, hne, hp]
    · simp [sendAudioChunk, hne, hp, hv, hlen]
  · intro hp hor
    have hcond : ¬ (s.isVoiceDetected = false ∧ audioLengthMs s < (minRecordingLength : ℚ)) := by
      rcases hor with hv | hlen
      · intro hc
        rw [hv] at hc
        exact absurd hc.1 (by simp)
      · intro hc
        exact absurd hc.2 (not_lt.mpr hlen)
    simp [sendAudioChunk, hne, hp, hcond]

/-- Witness for claim C5: a one-frame buffer of two samples at 44100 Hz
(duration ≈ 0.045 ms < 1000 ms) with voice not detected is discarded. -/
theorem sendAudioChunk_guard_witness :
    sendAudioChunk
        { sampleRate := 44100, audioBuffer := [[0, 0]], audioState := AudioState.RECORDING,
          audioQueue := [], isPlaying := false, isSpeaking := false,
          isMuted := false, currentSource := none, isInterrupted := false,
          isProcessing := false, isGreeting := false, isVisionProcessing := false,
          isVoiceDetected := false, lastVoiceTime := 0 } =
      ({ sampleRate := 44100, audioBuffer := [], audioState := AudioState.RECORDING,
         audioQueue := [], isPlaying := false, isSpeaking := false,
         isMuted := false, currentSource := none, isInterrupted := false,
         isProcessing := false, isGreeting := false, isVisionProcessing := false,
         isVoiceDetected := false, lastVoiceTime := 0 }, none) := by
  have h := (sendAudioChunk_guard
    { sampleRate := 44100, audioBuffer := [[0, 0]], audioState := AudioState.RECORDING,
      audioQueue := [], isPlaying := false, isSpeaking := false,
      isMuted := false, currentSource := none, isInterrupted := false,
      isProcessing := false, isGreeting := false, isVisionProcessing := false,
      isVoiceDetected := false, lastVoiceTime := 0 } (by simp)).1 rfl
    (by norm_num [audioLengthMs, minRecordingLength])
  exact h

/-! ### Helper lemmas about `sendAudioChunk` and `accumulateFrame` -/

lemma sendAudioChunk_clears (s : AudioServiceState) (h : s.audioBuffer ≠ []) :
    (sendAudioChunk s).1 = { s with audioBuffer := [] } := by
  unfold sendAudioChunk
  rw [if_neg h]
  split_ifs <;> rfl

lemma sendAudioChunk_sent (s : AudioServiceState) :
    (sendAudioChunk s).2 = none ∨
    (sendAudioChunk s).2 = some (float32ToWav s.audioBuffer.flatten s.sampleRate) := by
  unfold sendAudioChunk
  split_ifs <;> simp

lemma accumulateFrame_protected (s : AudioServiceState) (f : List ℚ) (t : ℕ)
    (energy : ℝ) (a b : Bool)
    (h : s.isProcessing = true ∨ s.isVisionProcessing = true ∨ s.isGreeting = true) :
    accumulateFrame s f t energy a b =
      { state := s, sent := none, flushed := none, sentInterrupt := b,
        interruptInvoked := a, recordingDataIsVoice := false } := by
  unfold accumulateFrame
  rw [if_pos h]

lemma accumulateFrame_keep_noflush (s : AudioServiceState) (f : List ℚ) (t : ℕ)
    (energy : ℝ) (a b : Bool)
    (hnp : ¬(s.isProcessing = true ∨ s.isVisionProcessing = true ∨ s.isGreeting = true))
    (hkeep : s.isVoiceDetected = true ∨ t - s.lastVoiceTime < silenceTimeout)
    (hnf : ¬(energy ≤ voiceThreshold ∧ t - s.lastVoiceTime > silenceTimeout)) :
    accumulateFrame s f t energy a b =
      { state := { s with audioBuffer := s.audioBuffer ++ [f] }, sent := none,
        flushed := none, sentInterrupt := b, interruptInvoked := a,
        recordingDataIsVoice := s.isVoiceDetected } := by
  unfold accumulateFrame
  rw [if_neg hnp, if_pos hkeep, if_neg hnf]

lemma accumulateFrame_flush (s : AudioServiceState) (f : List ℚ) (t : ℕ)
    (energy : ℝ) (a b : Bool)
    (hnp : ¬(s.isProcessing = true ∨ s.isVisionProcessing = true ∨ s.isGreeting = true))
    (hkeep : s.isVoiceDetected = true ∨ t - s.lastVoiceTime < silenceTimeout)
    (hfl : energy ≤ voiceThreshold ∧ t - s.lastVoiceTime > silenceTimeout) :
    accumulateFrame s f t energy a b =
      { state := { s with audioBuffer := [], isVoiceDetected := false },
        sent := (sendAudioChunk
          { s with audioBuffer := s.audioBuffer ++ [f], isVoiceDetected := false }).2,
        flushed := some (s.audioBuffer ++ [f]), sentInterrupt := b,
        interruptInvoked := a, recordingDataIsVoice := false } := by
  unfold accumulateFrame
  rw [if_neg hnp, if_pos hkeep, if_pos hfl]
  have hclears := sendAudioChunk_clears
    { s with audioBuffer := s.audioBuffer ++ [f], isVoiceDetected := false } (by simp)
  simp only [hclears]

lemma accumulateFrame_skip (s : AudioServiceState) (f : List ℚ) (t : ℕ)
    (energy : ℝ) (a b : Bool)
    (hnp : ¬(s.isProcessing = true ∨ s.isVisionProcessing = true ∨ s.isGreeting = true))
    (hskip : ¬(s.isVoiceDetected = true ∨ t - s.lastVoiceTime < silenceTimeout)) :
    accumulateFrame s f t energy a b =
      { state := s, sent := none, flushed := none, sentInterrupt := b,
        interruptInvoked := a, recordingDataIsVoice := s.isVoiceDetected } := by
  unfold accumulateFrame
  rw [if_neg hnp, if_neg hskip]

/-! ### Single-frame behaviour of `handleAudioProcess` -/

/-- The three protected flags are all clear. -/
def flagsClear (s : AudioServiceState) : Prop :=
  s.isProcessing = false ∧ s.isVisionProcessing = false ∧ s.isGreeting = false

lemma flagsClear_not_protected {s : AudioServiceState} (hf : flagsClear s) :
    ¬(s.isProcessing = true ∨ s.isVisionProcessing = true ∨ s.isGreeting = true) := by
  simp [hf.1, hf.2.1, hf.2.2]

lemma handleAudioProcess_quiet (s : AudioServiceState) (f : List ℚ) (t : ℕ)
    (hE : frameEnergy f s.sampleRate ≤ voiceThreshold) :
    handleAudioProcess s f t =
      accumulateFrame s f t (frameEnergy f s.sampleRate) false false := by
  unfold handleAudioProcess
  rw [if_neg (not_lt.mpr hE)]

lemma handleAudioProcess_loud_protected (s : AudioServiceState) (f : List ℚ) (t : ℕ)
    (hE : frameEnergy f s.sampleRate > voiceThreshold)
    (h : s.isProcessing = true ∨ s.isVisionProcessing = true ∨ s.isGreeting = true) :
    handleAudioProcess s f t =
      { state := s, sent := none, flushed := none, sentInterrupt := false,
        interruptInvoked := false, recordingDataIsVoice := false } := by
  unfold handleAudioProcess
  rw [if_pos hE, if_pos h]

lemma handleAudioProcess_loud_cont (s : AudioServiceState) (f : List ℚ) (t : ℕ)
    (hE : frameEnergy f s.sampleRate > voiceThreshold)
    (hnp : ¬(s.isProcessing = true ∨ s.isVisionProcessing = true ∨ s.isGreeting = true))
    (hd : s.isVoiceDetected = true) :
    handleAudioProcess s f t =
      accumulateFrame { s with lastVoiceTime := t } f t
        (frameEnergy f s.sampleRate) false false := by
  unfold handleAudioProcess
  rw [if_pos hE, if_neg hnp, if_neg (by simp [hd])]

lemma handleAudioProcess_loud_first_nospeak (s : AudioServiceState) (f : List ℚ) (t : ℕ)
    (hE : frameEnergy f s.sampleRate > voiceThreshold)
    (hnp : ¬(s.isProcessing = true ∨ s.isVisionProcessing = true ∨ s.isGreeting = true))
    (hd : s.isVoiceDetected = false)
    (hs : ¬((s.isSpeaking = true ∨ s.audioState = AudioState.SPEAKING) ∧
            s.isGreeting = false)) :
    handleAudioProcess s f t =
      accumulateFrame { s with isVoiceDetected := true, lastVoiceTime := t } f t
        (frameEnergy f s.sampleRate) false false := by
  unfold handleAudioProcess
  rw [if_pos hE, if_neg hnp, if_pos hd, if_neg hs]

lemma handleAudioProcess_loud_first_interrupt (s : AudioServiceState) (f : List ℚ) (t : ℕ)
    (hE : frameEnergy f s.sampleRate > voiceThreshold)
    (hnp : ¬(s.isProcessing = true ∨ s.isVisionProcessing = true ∨ s.isGreeting = true))
    (hd : s.isVoiceDetected = false)
    (hs : (s.isSpeaking = true ∨ s.audioState = AudioState.SPEAKING) ∧
          s.isGreeting = false) :
    handleAudioProcess s f t =
      accumulateFrame
        { interruptPlayback { s with isVoiceDetected := true } with lastVoiceTime := t }
        f t (frameEnergy f s.sampleRate) true true := by
  unfold handleAudioProcess
  rw [if_pos hE, if_neg hnp, if_pos hd, if_pos hs]

/-! ### Fully evaluated single-frame outcomes -/

lemma step_voiced_first (s : AudioServiceState) (f : List ℚ) (t : ℕ)
    (hE : frameEnergy f s.sampleRate > voiceThreshold) (hf : flagsClear s)
    (hd : s.isVoiceDetected = false) (hsp : s.isSpeaking = false)
    (ha : s.audioState ≠ AudioState.SPEAKING) :
    handleAudioProcess s f t =
      { state := { s with isVoiceDetected := true, lastVoiceTime := t,
                          audioBuffer := s.audioBuffer ++ [f] },
        sent := none, flushed := none, sentInterrupt := false,
        interruptInvoked := false, recordingDataIsVoice := true } := by
  rw [handleAudioProcess_loud_first_nospeak s f t hE (flagsClear_not_protected hf) hd
    (by simp [hsp, ha])]
  rw [accumulateFrame_keep_noflush _ _ _ _ _ _
    (by simpa using flagsClear_not_protected hf) (by simp)
    (by intro hc; exact absurd hc.1 (not_le.mpr hE))]

lemma step_voiced_first_interrupt (s : AudioServiceState) (f : List ℚ) (t : ℕ)
    (hE : frameEnergy f s.sampleRate > voiceThreshold) (hf : flagsClear s)
    (hd : s.isVoiceDetected = false)
    (hsp : s.isSpeaking = true ∨ s.audioState = AudioState.SPEAKING) :
    handleAudioProcess s f t =
      { state := { s with isVoiceDetected := true, isInterrupted := true,
                          currentSource := none, audioQueue := [],
                          audioState := AudioState.INTERRUPTED, isPlaying := false,
                          isSpeaking := false, lastVoiceTime := t,
                          audioBuffer := s.audioBuffer ++ [f] },
        sent := none, flushed := none, sentInterrupt := true,
        interruptInvoked := true, recordingDataIsVoice := true } := by
  rw [handleAudioProcess_loud_first_interrupt s f t hE (flagsClear_not_protected hf) hd
    (by simpa [hf.2.2] using hsp)]
  rw [accumulateFrame_keep_noflush _ _ _ _ _ _
    (by simp [interruptPlayback, hf.1, hf.2.1, hf.2.2])
    (by simp [interruptPlayback])
    (by intro hc; exact absurd hc.1 (not_le.mpr hE))]
  simp [interruptPlayback]

lemma step_voiced_cont (s : AudioServiceState) (f : List ℚ) (t : ℕ)
    (hE : frameEnergy f s.sampleRate > voiceThreshold) (hf : flagsClear s)
    (hd : s.isVoiceDetected = true) :
    handleAudioProcess s f t =
      { state := { s with lastVoiceTime := t, audioBuffer := s.audioBuffer ++ [f] },
        sent := none, flushed := none, sentInterrupt := false,
        interruptInvoked := false, recordingDataIsVoice := true } := by
  rw [handleAudioProcess_loud_cont s f t hE (flagsClear_not_protected hf) hd]
  rw [accumulateFrame_keep_noflush _ _ _ _ _ _
    (by simpa using flagsClear_not_protected hf) (by simp [hd])
    (by intro hc; exact absurd hc.1 (not_le.mpr hE))]
  simp [hd]

lemma step_silence_hold (s : AudioServiceState) (f : List ℚ) (t : ℕ)
    (hE : frameEnergy f s.sampleRate ≤ voiceThreshold) (hf : flagsClear s)
    (hd : s.isVoiceDetected = true)
    (ht : t - s.lastVoiceTime ≤ silenceTimeout) :
    handleAudioProcess s f t =
      { state := { s with audioBuffer := s.audioBuffer ++ [f] },
        sent := none, flushed := none, sentInterrupt := false,
        interruptInvoked := false, recordingDataIsVoice := true } := by
  rw [handleAudioProcess_quiet s f t hE]
  rw [accumulateFrame_keep_noflush _ _ _ _ _ _ (flagsClear_not_protected hf)
    (Or.inl hd) (by intro hc; exact absurd hc.2 (not_lt.mpr ht))]
  simp [hd]

lemma step_trip (s : AudioServiceState) (f : List ℚ) (t : ℕ)
    (hE : frameEnergy f s.sampleRate ≤ voiceThreshold) (hf : flagsClear s)
    (hd : s.isVoiceDetected = true)
    (ht : t - s.lastVoiceTime > silenceTimeout) :
    handleAudioProcess s f t =
      { state := { s with audioBuffer := [], isVoiceDetected := false },
        sent := (sendAudioChunk
          { s with audioBuffer := s.audioBuffer ++ [f], isVoiceDetected := false }).2,
        flushed := some (s.audioBuffer ++ [f]), sentInterrupt := false,
        interruptInvoked := false, recordingDataIsVoice := false } := by
  rw [handleAudioProcess_quiet s f t hE]
  rw [accumulateFrame_flush _ _ _ _ _ _ (flagsClear_not_protected hf)
    (Or.inl hd) ⟨hE, ht⟩]

lemma step_rest (s : AudioServiceState) (f : List ℚ) (t : ℕ)
    (hE : frameEnergy f s.sampleRate ≤ voiceThreshold) (hf : flagsClear s)
    (hd : s.isVoiceDetected = false)
    (ht : silenceTimeout ≤ t - s.lastVoiceTime) :
    handleAudioProcess s f t =
      { state := s, sent := none, flushed := none, sentInterrupt := false,
        interruptInvoked := false, recordingDataIsVoice := false } := by
  rw [handleAudioProcess_quiet s f t hE]
  rw [accumulateFrame_skip _ _ _ _ _ _ (flagsClear_not_protected hf)
    (by simp [hd, not_lt.mpr ht])]
  simp [hd]

/-! ### Concrete frames and their energies -/

lemma applyLowPassFilter_replicate (c : ℝ) (n : ℕ) (sr cutoff : ℝ) :
    applyLowPassFilter (List.replicate n c) sr cutoff = List.replicate n c := by
  cases n with
  | zero => rfl
  | succ m => simp [applyLowPassFilter, List.replicate_succ, lowPassAux_const]

/-- A frame of two full-scale samples (RMS energy 1, above threshold). -/
def voicedFrame : List ℚ := List.replicate 2 1

/-- A frame of two zero samples (RMS energy 0, below threshold). -/
def quietFrame : List ℚ := List.replicate 2 0

lemma frameEnergy_voicedFrame (sr : ℕ) : frameEnergy voicedFrame sr = 1 := by
  have hmap : voicedFrame.map (fun x : ℚ => (x : ℝ)) = List.replicate 2 (1 : ℝ) := by
    simp [voicedFrame]
  rw [frameEnergy, hmap, applyLowPassFilter_replicate]
  show Real.sqrt (([(1 : ℝ), 1].map (fun x => x * x)).sum / 2) = 1
  norm_num

lemma frameEnergy_quietFrame (sr : ℕ) : frameEnergy quietFrame sr = 0 := by
  have hmap : quietFrame.map (fun x : ℚ => (x : ℝ)) = List.replicate 2 (0 : ℝ) := by
    simp [quietFrame]
  rw [frameEnergy, hmap, applyLowPassFilter_replicate]
  show Real.sqrt (([(0 : ℝ), 0].map (fun x => x * x)).sum / 2) = 0
  norm_num

lemma voicedFrame_loud (sr : ℕ) : frameEnergy voicedFrame sr > voiceThreshold := by
  rw [frameEnergy_voicedFrame, voiceThreshold]
  norm_num

lemma quietFrame_quiet (sr : ℕ) : frameEnergy quietFrame sr ≤ voiceThreshold := by
  rw [frameEnergy_quietFrame, voiceThreshold]
  norm_num

/-- A freshly started recording state (`startRecording` just completed):
empty utterance buffer, no voice detected, `lastVoiceTime = 0`, no protected
flags, nothing playing, with the default 44100 Hz configuration. -/
def baseState : AudioServiceState :=
  { sampleRate := 44100, audioBuffer := [], audioState := AudioState.RECORDING,
    audioQueue := [], isPlaying := false, isSpeaking := false, isMuted := false,
    currentSource := none, isInterrupted := false, isProcessing := false,
    isGreeting := false, isVisionProcessing := false, isVoiceDetected := false,
    lastVoiceTime := 0 }

/-! ### Claim C1: protected flags versus barge-in -/

/-- A state in the middle of TTS playback (`Speaking`) while the processing
flag is also set. -/
def c1State : AudioServiceState :=
  { baseState with
    isProcessing := true, isSpeaking := true,
    audioState := AudioState.SPEAKING, audioQueue := [5], currentSource := some 1 }

/-- Claim C1 counterexample: with the processing flag set, a frame whose
energy exceeds the threshold while the pipeline is Speaking and greeting is
false does NOT invoke `interruptPlayback` and does NOT signal the transport
interrupt — the protected-state early return comes first, so barge-in does
not pierce the Processing suppression. -/
theorem barge_in_suppressed_counterexample :
    frameEnergy voicedFrame 44100 > voiceThreshold ∧
    c1State.isProcessing = true ∧ c1State.isSpeaking = true ∧
    c1State.audioState = AudioState.SPEAKING ∧ c1State.isGreeting = false ∧
    (handleAudioProcess c1State voicedFrame 5000).interruptInvoked = false ∧
    (handleAudioProcess c1State voicedFrame 5000).sentInterrupt = false := by
  refine ⟨voicedFrame_loud 44100, rfl, rfl, rfl, rfl, ?_, ?_⟩ <;>
    rw [handleAudioProcess_loud_protected c1State voicedFrame 5000
      (voicedFrame_loud _) (Or.inl rfl)]

/-- Claim C1 (amended): while any ProtectedFlag (processing, greeting,
visionProcessing) is true, `handleAudioProcess` never invokes
`interruptPlayback` and never signals the transport interrupt — regardless
of energy and of the Speaking state; it returns with the state unchanged
after dispatching a visualization event with `isVoice` forced false.
Barge-in does not pierce any of the three suppressions; it fires only when
no protected flag is set. -/
theorem barge_in_suppressed (s : AudioServiceState) (f : List ℚ) (t : ℕ)
    (hprot : s.isProcessing = true ∨ s.isVisionProcessing = true ∨ s.isGreeting = true) :
    (handleAudioProcess s f t).state = s ∧
    (handleAudioProcess s f t).interruptInvoked = false ∧
    (handleAudioProcess s f t).sentInterrupt = false ∧
    (handleAudioProcess s f t).sent = none ∧
    (handleAudioProcess s f t).recordingDataIsVoice = false := by
  by_cases hE : frameEnergy f s.sampleRate > voiceThreshold
  · rw [handleAudioProcess_loud_protected s f t hE hprot]
    exact ⟨rfl, rfl, rfl, rfl, rfl⟩
  · rw [handleAudioProcess_quiet s f t (not_lt.mp hE),
      accumulateFrame_protected _ _ _ _ _ _ hprot]
    exact ⟨rfl, rfl, rfl, rfl, rfl⟩

/-- Witness for the amended claim C1 at the concrete Speaking-and-processing
state. -/
theorem barge_in_suppressed_witness :
    (handleAudioProcess c1State voicedFrame 6000).state = c1State ∧
    (handleAudioProcess c1State voicedFrame 6000).interruptInvoked = false ∧
    (handleAudioProcess c1State voicedFrame 6000).sentInterrupt = false ∧
    (handleAudioProcess c1State voicedFrame 6000).sent = none ∧
    (handleAudioProcess c1State voicedFrame 6000).recordingDataIsVoice = false :=
  barge_in_suppressed c1State voicedFrame 6000 (Or.inl rfl)

/-! ### Claim C2: barge-in empties the queue within one callback -/

/-- A Speaking state in which voice was already flagged on an earlier frame
(`isVoiceDetected = true`). -/
def c2State : AudioServiceState :=
  { baseState with
    audioState := AudioState.SPEAKING, isSpeaking := true,
    isVoiceDetected := true, audioQueue := [7], currentSource := some 1 }

/-- Claim C2 counterexample: PipelineState is Speaking, greeting is false,
the frame's filtered RMS energy exceeds the threshold — but voice was
already flagged, so the interrupt block is skipped: the playback queue stays
non-empty and the audioState stays SPEAKING, not INTERRUPTED. -/
theorem barge_in_empties_queue_counterexample :
    frameEnergy voicedFrame 44100 > voiceThreshold ∧
    c2State.audioState = AudioState.SPEAKING ∧ c2State.isGreeting = false ∧
    (handleAudioProcess c2State voicedFrame 5000).state.audioQueue = [7] ∧
    (handleAudioProcess c2State voicedFrame 5000).state.audioState =
      AudioState.SPEAKING ∧
    ([7] : List ℕ) ≠ [] ∧ AudioState.SPEAKING ≠ AudioState.INTERRUPTED := by
  refine ⟨voicedFrame_loud 44100, rfl, rfl, ?_, ?_, by simp, by simp⟩ <;>
    (rw [step_voiced_cont c2State voicedFrame 5000 (voicedFrame_loud _)
      ⟨rfl, rfl, rfl⟩ rfl]; rfl)

/-- Claim C2 (amended): in a frame callback where PipelineState is Speaking,
the greeting flag is false, no processing/vision flag is set, voice was not
already flagged, and the frame's filtered RMS energy exceeds the threshold,
by the end of that single `handleAudioProcess` invocation the playback queue
is empty and `audioState = INTERRUPTED` (and both `interruptPlayback` and
the transport interrupt were triggered). -/
theorem barge_in_empties_queue (s : AudioServiceState) (f : List ℚ) (t : ℕ)
    (hsp : s.isSpeaking = true ∨ s.audioState = AudioState.SPEAKING)
    (hf : flagsClear s) (hd : s.isVoiceDetected = false)
    (hE : frameEnergy f s.sampleRate > voiceThreshold) :
    (handleAudioProcess s f t).state.audioQueue = [] ∧
    (handleAudioProcess s f t).state.audioState = AudioState.INTERRUPTED ∧
    (handleAudioProcess s f t).interruptInvoked = true ∧
    (handleAudioProcess s f t).sentInterrupt = true := by
  rw [step_voiced_first_interrupt s f t hE hf hd hsp]
  exact ⟨rfl, rfl, rfl, rfl⟩

/-- A Speaking state with two queued chunks and voice not yet flagged. -/
def c2StateW : AudioServiceState :=
  { baseState with
    audioState := AudioState.SPEAKING, isSpeaking := true,
    audioQueue := [7, 8], currentSource := some 2 }

/-- Witness for the amended claim C2: a loud frame arriving during Speaking
empties the two-chunk queue and lands in INTERRUPTED. -/
theorem barge_in_empties_queue_witness :
    (handleAudioProcess c2StateW voicedFrame 5000).state.audioQueue = [] ∧
    (handleAudioProcess c2StateW voicedFrame 5000).state.audioState =
      AudioState.INTERRUPTED ∧
    (handleAudioProcess c2StateW voicedFrame 5000).interruptInvoked = true ∧
    (handleAudioProcess c2StateW voicedFrame 5000).sentInterrupt = true :=
  barge_in_empties_queue c2StateW voicedFrame 5000 (Or.inl rfl) ⟨rfl, rfl, rfl⟩ rfl
    (voicedFrame_loud _)

/-! ### Claim C8: only the unfiltered frame is buffered and transmitted -/

lemma accumulateFrame_data (s : AudioServiceState) (f : List ℚ) (t : ℕ)
    (energy : ℝ) (a b : Bool) :
    ((accumulateFrame s f t energy a b).state.audioBuffer = s.audioBuffer ∨
     (accumulateFrame s f t energy a b).state.audioBuffer = s.audioBuffer ++ [f] ∨
     (accumulateFrame s f t energy a b).state.audioBuffer = []) ∧
    (∀ fl, (accumulateFrame s f t energy a b).flushed = some fl →
      fl = s.audioBuffer ++ [f]) ∧
    (∀ blob, (accumulateFrame s f t energy a b).sent = some blob →
      blob = float32ToWav (s.audioBuffer ++ [f]).flatten s.sampleRate) := by
  simp only [accumulateFrame]
  split_ifs with h1 h2 h3
  · simp
  · refine ⟨Or.inr (Or.inr ?_), ?_, ?_⟩
    · rw [sendAudioChunk_clears _ (by simp)]
    · intro fl hfl
      simpa using hfl.symm
    · intro blob hblob
      rcases sendAudioChunk_sent
          { s with audioBuffer := s.audioBuffer ++ [f], isVoiceDetected := false } with
        hn | hs
      · rw [hn] at hblob; cases hblob
      · rw [hs] at hblob
        simpa using hblob.symm
  · simp
  · simp

/-- Claim C8: the frame that `handleAudioProcess` accumulates into the
utterance buffer is the unfiltered copy of the hardware input, sample for
sample; the buffer only ever stays, grows by exactly that raw frame, or is
emptied by a flush; the buffer handed to `sendAudioChunk` and the WAV blob
handed to the transport are built from the raw frames only — the low-pass
filtered copy is used solely for the energy measurement and never reaches
the transmitted audio. -/
theorem unfiltered_frame_transmitted (s : AudioServiceState) (f : List ℚ) (t : ℕ) :
    ((handleAudioProcess s f t).state.audioBuffer = s.audioBuffer ∨
     (handleAudioProcess s f t).state.audioBuffer = s.audioBuffer ++ [f] ∨
     (handleAudioProcess s f t).state.audioBuffer = []) ∧
    (∀ fl, (handleAudioProcess s f t).flushed = some fl →
      fl = s.audioBuffer ++ [f]) ∧
    (∀ blob, (handleAudioProcess s f t).sent = some blob →
      blob = float32ToWav (s.audioBuffer ++ [f]).flatten s.sampleRate) := by
  by_cases hE : frameEnergy f s.sampleRate > voiceThreshold
  · by_cases hprot : s.isProcessing = true ∨ s.isVisionProcessing = true ∨
        s.isGreeting = true
    · rw [handleAudioProcess_loud_protected s f t hE hprot]
      simp
    · by_cases hd : s.isVoiceDetected = false
      · by_cases hsp : (s.isSpeaking = true ∨ s.audioState = AudioState.SPEAKING) ∧
            s.isGreeting = false
        · rw [handleAudioProcess_loud_first_interrupt s f t hE hprot hd hsp]
          have h := accumulateFrame_data
            { interruptPlayback { s with isVoiceDetected := true } with
              lastVoiceTime := t } f t (frameEnergy f s.sampleRate) true true
          simpa [interruptPlayback] using h
        · rw [handleAudioProcess_loud_first_nospeak s f t hE hprot hd hsp]
          have h := accumulateFrame_data
            { s with isVoiceDetected := true, lastVoiceTime := t } f t
            (frameEnergy f s.sampleRate) false false
          simpa using h
      · rw [handleAudioProcess_loud_cont s f t hE hprot (by simpa using hd)]
        have h := accumulateFrame_data { s with lastVoiceTime := t } f t
          (frameEnergy f s.sampleRate) false false
        simpa using h
  · rw [handleAudioProcess_quiet s f t (not_lt.mp hE)]
    exact accumulateFrame_data s f t _ false false

/-- A mid-utterance state (one raw frame buffered, voice flagged) with a
1 Hz sample-rate configuration so that the flushed utterance passes the
minimum-length check and is actually sent. -/
def c8State : AudioServiceState :=
  { baseState with
    sampleRate := 1, audioBuffer := [voicedFrame],
    isVoiceDetected := true, lastVoiceTime := 2000 }

lemma c8State_sends :
    (handleAudioProcess c8State quietFrame 3100).sent =
      some (float32ToWav ([voicedFrame] ++ [quietFrame]).flatten 1) := by
  rw [step_trip c8State quietFrame 3100 (quietFrame_quiet _) ⟨rfl, rfl, rfl⟩ rfl
    (by norm_num [c8State, baseState, silenceTimeout])]
  show (sendAudioChunk { c8State with
    audioBuffer := c8State.audioBuffer ++ [quietFrame], isVoiceDetected := false }).2 = _
  rw [sendAudioChunk]
  rw [if_neg (by simp [c8State, baseState]), if_neg (by simp [c8State, baseState]),
    if_neg (by norm_num [audioLengthMs, c8State, baseState, voicedFrame, quietFrame,
      minRecordingLength])]
  simp [c8State, baseState]

/-- Witness for claim C8: at the concrete mid-utterance state, the blob the
transport receives is the WAV encoding of the raw (unfiltered) accumulated
frames. -/
theorem unfiltered_frame_transmitted_witness :
    float32ToWav ([voicedFrame] ++ [quietFrame]).flatten 1 =
      float32ToWav (c8State.audioBuffer ++ [quietFrame]).flatten c8State.sampleRate :=
  (unfiltered_frame_transmitted c8State quietFrame 3100).2.2 _ c8State_sends

/-! ### Claim C3: utterance segmentation over a frame sequence -/

/-- The arrival time of the last frame of `l`, or `d` when `l` is empty:
the value of `lastVoiceTime` after a run of above-threshold frames. -/
def lastTimeOf (l : List (List ℚ × ℕ)) (d : ℕ) : ℕ :=
  l.foldl (fun _ p => p.2) d

lemma lastTimeOf_cons (p : List ℚ × ℕ) (l : List (List ℚ × ℕ)) (d : ℕ) :
    lastTimeOf (p :: l) d = lastTimeOf l p.2 := rfl

/-- Post-timeout silence frames with voice cleared: nothing is accumulated,
nothing is flushed, the state is untouched. -/
lemma processFrames_silence_rest (rs : List (List ℚ × ℕ)) :
    ∀ s : AudioServiceState, flagsClear s → s.isVoiceDetected = false →
    (∀ p ∈ rs, frameEnergy p.1 s.sampleRate ≤ voiceThreshold) →
    (∀ p ∈ rs, silenceTimeout ≤ p.2 - s.lastVoiceTime) →
    processFrames s rs = (s, []) := by
  induction rs with
  | nil => intro s _ _ _ _; rfl
  | cons p rs ih =>
      intro s hf hd hE hT
      have hstep := step_rest s p.1 p.2 (hE p (List.mem_cons_self p rs)) hf hd
        (hT p (List.mem_cons_self p rs))
      simp only [processFrames, hstep]
      have h2 := ih s hf hd (fun q hq => hE q (List.mem_cons_of_mem p hq))
        (fun q hq => hT q (List.mem_cons_of_mem p hq))
      simp only [h2]
      simp

/-- The flush that the silence-timeout frame triggers, followed by
post-timeout silence frames that are neither accumulated nor flushed. -/
lemma processFrames_trip_rest (rest : List (List ℚ × ℕ)) (ftrip : List ℚ) (ttrip : ℕ)
    (s : AudioServiceState) (hf : flagsClear s) (hd : s.isVoiceDetected = true)
    (htE : frameEnergy ftrip s.sampleRate ≤ voiceThreshold)
    (htT : ttrip - s.lastVoiceTime > silenceTimeout)
    (hrE : ∀ p ∈ rest, frameEnergy p.1 s.sampleRate ≤ voiceThreshold)
    (hrT : ∀ p ∈ rest, silenceTimeout ≤ p.2 - s.lastVoiceTime) :
    processFrames s ((ftrip, ttrip) :: rest) =
      ({ s with audioBuffer := [], isVoiceDetected := false },
        [s.audioBuffer ++ [ftrip]]) := by
  have hstep := step_trip s ftrip ttrip htE hf hd htT
  simp only [processFrames, hstep]
  have h2 := processFrames_silence_rest rest
    { s with audioBuffer := [], isVoiceDetected := false }
    ⟨hf.1, hf.2.1, hf.2.2⟩ rfl hrE hrT
  simp only [h2]
  simp

/-- Silence frames inside the timeout window are accumulated without a
flush; the timeout frame then flushes everything. -/
lemma processFrames_hold_trip (ss1 : List (List ℚ × ℕ)) :
    ∀ s : AudioServiceState, flagsClear s → s.isVoiceDetected = true →
    (∀ p ∈ ss1, frameEnergy p.1 s.sampleRate ≤ voiceThreshold) →
    (∀ p ∈ ss1, p.2 - s.lastVoiceTime ≤ silenceTimeout) →
    ∀ (ftrip : List ℚ) (ttrip : ℕ) (rest : List (List ℚ × ℕ)),
    frameEnergy ftrip s.sampleRate ≤ voiceThreshold →
    ttrip - s.lastVoiceTime > silenceTimeout →
    (∀ p ∈ rest, frameEnergy p.1 s.sampleRate ≤ voiceThreshold) →
    (∀ p ∈ rest, silenceTimeout ≤ p.2 - s.lastVoiceTime) →
    processFrames s (ss1 ++ (ftrip, ttrip) :: rest) =
      ({ s with audioBuffer := [], isVoiceDetected := false },
        [s.audioBuffer ++ ss1.map Prod.fst ++ [ftrip]]) := by
  induction ss1 with
  | nil =>
      intro s hf hd _ _ ftrip ttrip rest htE htT hrE hrT
      simpa using processFrames_trip_rest rest ftrip ttrip s hf hd htE htT hrE hrT
  | cons p ss1 ih =>
      intro s hf hd hsE hsT ftrip ttrip rest htE htT hrE hrT
      have hstep := step_silence_hold s p.1 p.2 (hsE p (List.mem_cons_self p ss1)) hf hd
        (hsT p (List.mem_cons_self p ss1))
      simp only [List.cons_append, processFrames, hstep]
      have h2 := ih { s with audioBuffer := s.audioBuffer ++ [p.1] }
        ⟨hf.1, hf.2.1, hf.2.2⟩ hd
        (fun q hq => hsE q (List.mem_cons_of_mem p hq))
        (fun q hq => hsT q (List.mem_cons_of_mem p hq))
        ftrip ttrip rest htE htT hrE hrT
      simp only [List.append_eq, h2]
      simp [List.append_assoc]

/-- A run of above-threshold frames (voice already flagged) accumulates each
raw frame and keeps updating `lastVoiceTime`; the subsequent silence frames
and the timeout frame then produce the single flush. -/
lemma processFrames_voiced_hold_trip (vt : List (List ℚ × ℕ)) :
    ∀ s : AudioServiceState, flagsClear s → s.isVoiceDetected = true →
    (∀ p ∈ vt, frameEnergy p.1 s.sampleRate > voiceThreshold) →
    ∀ (ss1 : List (List ℚ × ℕ)) (ftrip : List ℚ) (ttrip : ℕ)
      (rest : List (List ℚ × ℕ)),
    (∀ p ∈ ss1, frameEnergy p.1 s.sampleRate ≤ voiceThreshold) →
    (∀ p ∈ ss1, p.2 - lastTimeOf vt s.lastVoiceTime ≤ silenceTimeout) →
    frameEnergy ftrip s.sampleRate ≤ voiceThreshold →
    ttrip - lastTimeOf vt s.lastVoiceTime > silenceTimeout →
    (∀ p ∈ rest, frameEnergy p.1 s.sampleRate ≤ voiceThreshold) →
    (∀ p ∈ rest, silenceTimeout ≤ p.2 - lastTimeOf vt s.lastVoiceTime) →
    processFrames s (vt ++ ss1 ++ (ftrip, ttrip) :: rest) =
      ({ s with
          audioBuffer := [], isVoiceDetected := false,
          lastVoiceTime := lastTimeOf vt s.lastVoiceTime },
        [s.audioBuffer ++ vt.map Prod.fst ++ ss1.map Prod.fst ++ [ftrip]]) := by
  induction vt with
  | nil =>
      intro s hf hd _ ss1 ftrip ttrip rest hsE hsT htE htT hrE hrT
      simpa [lastTimeOf] using
        processFrames_hold_trip ss1 s hf hd hsE hsT ftrip ttrip rest htE htT hrE hrT
  | cons p vt ih =>
      intro s hf hd hvE ss1 ftrip ttrip rest hsE hsT htE htT hrE hrT
      have hstep := step_voiced_cont s p.1 p.2 (hvE p (List.mem_cons_self p vt)) hf hd
      simp only [List.cons_append, processFrames, hstep]
      have h2 := ih { s with lastVoiceTime := p.2, audioBuffer := s.audioBuffer ++ [p.1] }
        ⟨hf.1, hf.2.1, hf.2.2⟩ hd
        (fun q hq => hvE q (List.mem_cons_of_mem p hq))
        ss1 ftrip ttrip rest hsE hsT htE htT hrE hrT
      simp only [List.append_eq, h2]
      simp [lastTimeOf_cons, List.append_assoc]

/-- Claim C3 (amended): starting from a clean unprotected recording state,
given frames with energy above the threshold (`(v0 :: vt)`), then silence
frames within the timeout window (`ss1`), then the frame whose processing
trips the silence timeout (`ftrip` at `ttrip`), then further post-timeout
silence frames (`rest`): exactly one flush occurs (one `sendAudioChunk`
invocation, requiring voice-detected to have been true, which it clears),
and the flushed utterance consists exactly of the raw frames from voice
onset through — and including — the frame whose processing trips the
timeout; no earlier frame is dropped and no frame after the tripping frame
is included. -/
theorem utterance_flush (s : AudioServiceState) (v0 : List ℚ × ℕ)
    (vt ss1 rest : List (List ℚ × ℕ)) (ftrip : List ℚ) (ttrip : ℕ)
    (hf : flagsClear s) (hbuf : s.audioBuffer = []) (hd : s.isVoiceDetected = false)
    (hsp : s.isSpeaking = false) (ha : s.audioState ≠ AudioState.SPEAKING)
    (hvE : ∀ p ∈ v0 :: vt, frameEnergy p.1 s.sampleRate > voiceThreshold)
    (hsE : ∀ p ∈ ss1, frameEnergy p.1 s.sampleRate ≤ voiceThreshold)
    (hsT : ∀ p ∈ ss1, p.2 - lastTimeOf vt v0.2 ≤ silenceTimeout)
    (htE : frameEnergy ftrip s.sampleRate ≤ voiceThreshold)
    (htT : ttrip - lastTimeOf vt v0.2 > silenceTimeout)
    (hrE : ∀ p ∈ rest, frameEnergy p.1 s.sampleRate ≤ voiceThreshold)
    (hrT : ∀ p ∈ rest, silenceTimeout ≤ p.2 - lastTimeOf vt v0.2) :
    (processFrames s ((v0 :: vt) ++ ss1 ++ (ftrip, ttrip) :: rest)).2 =
      [(v0 :: vt).map Prod.fst ++ ss1.map Prod.fst ++ [ftrip]] ∧
    (processFrames s ((v0 :: vt) ++ ss1 ++ (ftrip, ttrip) :: rest)).1.isVoiceDetected
      = false ∧
    (processFrames s ((v0 :: vt) ++ ss1 ++ (ftrip, ttrip) :: rest)).1.audioBuffer
      = [] := by
  have h0 := step_voiced_first s v0.1 v0.2 (hvE v0 (List.mem_cons_self v0 vt)) hf hd hsp ha
  have hmain := processFrames_voiced_hold_trip vt
    { s with
      isVoiceDetected := true, lastVoiceTime := v0.2,
      audioBuffer := s.audioBuffer ++ [v0.1] }
    ⟨hf.1, hf.2.1, hf.2.2⟩ rfl
    (fun q hq => hvE q (List.mem_cons_of_mem v0 hq))
    ss1 ftrip ttrip rest hsE hsT htE htT hrE hrT
  simp only [List.cons_append, processFrames, h0, List.append_eq, hmain]
  simp [hbuf]

/-- Claim C3 counterexample: from a fresh recording state, one loud frame at
t = 2000 ms followed by one quiet frame at t = 3100 ms (which trips the
1000 ms silence timeout) yields a single flush whose utterance is
`[voicedFrame, quietFrame]` — it INCLUDES the frame whose processing
tripped the timeout, contradicting the claim that the flushed utterance
stops at the silence-timeout boundary and excludes that frame (which would
give `[voicedFrame]`). -/
theorem utterance_flush_counterexample :
    (processFrames baseState [(voicedFrame, 2000), (quietFrame, 3100)]).2 =
      [[voicedFrame, quietFrame]] ∧
    ([[voicedFrame, quietFrame]] : List (List (List ℚ))) ≠ [[voicedFrame]] := by
  constructor
  · have h0 := step_voiced_first baseState voicedFrame 2000 (voicedFrame_loud _)
      ⟨rfl, rfl, rfl⟩ rfl rfl (by decide)
    have h1 := step_trip
      { baseState with
        isVoiceDetected := true, lastVoiceTime := 2000,
        audioBuffer := baseState.audioBuffer ++ [voicedFrame] }
      quietFrame 3100 (quietFrame_quiet _) ⟨rfl, rfl, rfl⟩ rfl
      (by norm_num [baseState, silenceTimeout])
    simp only [processFrames, h0, h1]
    simp [baseState]
  · simp [voicedFrame, quietFrame]

/-- Witness for the amended claim C3: one loud frame at 2000 ms, a quiet
frame inside the window at 2500 ms, the tripping quiet frame at 3200 ms and
one post-timeout quiet frame at 3300 ms give exactly one flush containing
the loud frame, the held silence frame and the tripping frame. -/
theorem utterance_flush_witness :
    (processFrames baseState
        [(voicedFrame, 2000), (quietFrame, 2500), (quietFrame, 3200),
         (quietFrame, 3300)]).2 =
      [[voicedFrame, quietFrame, quietFrame]] ∧
    (processFrames baseState
        [(voicedFrame, 2000), (quietFrame, 2500), (quietFrame, 3200),
         (quietFrame, 3300)]).1.isVoiceDetected = false ∧
    (processFrames baseState
        [(voicedFrame, 2000), (quietFrame, 2500), (quietFrame, 3200),
         (quietFrame, 3300)]).1.audioBuffer = [] := by
  have h := utterance_flush baseState (voicedFrame, 2000) [] [(quietFrame, 2500)]
    [(quietFrame, 3300)] quietFrame 3200 ⟨rfl, rfl, rfl⟩ rfl rfl rfl (by decide)
    (by intro p hp; simp at hp; subst hp; exact voicedFrame_loud _)
    (by intro p hp; simp at hp; subst hp; exact quietFrame_quiet _)
    (by intro p hp; simp at hp; subst hp; norm_num [lastTimeOf, silenceTimeout])
    (quietFrame_quiet _)
    (by norm_num [lastTimeOf, silenceTimeout])
    (by intro p hp; simp at hp; subst hp; exact quietFrame_quiet _)
    (by intro p hp; simp at hp; subst hp; norm_num [lastTimeOf, silenceTimeout])
  simpa using h

end Vocalis
